import Mathlib

/-!
Shallow embedding of the agricultural analytics dashboard (src/app.py):
the `CROP_CONDITIONS` table, the farmer-path recommendation selector
(temperature / soil-pH / rainfall / growth-stage / nutrient-management
blocks), the one-hot crop indicator construction handed to the regression
predictor, and the mean-comparison message logic of the farmer and market
paths.  Numeric slider values and predictions are modelled as rationals.
-/

/-- One entry of the `CROP_CONDITIONS` dictionary (app.py lines 10-47). -/
structure CropProfile where
  temp_range : ℚ × ℚ
  soil_ph : ℚ × ℚ
  rainfall : ℚ × ℚ
  soil_moisture : ℚ × ℚ
  fertilizer_npk : String
  growing_period : String
  water_requirement : String
deriving DecidableEq

/-- `CROP_CONDITIONS['Rice']` (app.py lines 11-19). -/
def riceProfile : CropProfile :=
  { temp_range := (20, 35), soil_ph := (5.5, 6.5), rainfall := (1000, 2000),
    soil_moisture := (0.6, 0.8),
    fertilizer_npk := "N: 120kg/ha, P: 60kg/ha, K: 60kg/ha",
    growing_period := "90-120 days", water_requirement := "1200-1600mm" }

/-- `CROP_CONDITIONS['Wheat']` (app.py lines 20-28). -/
def wheatProfile : CropProfile :=
  { temp_range := (15, 25), soil_ph := (6.0, 7.0), rainfall := (600, 1100),
    soil_moisture := (0.5, 0.7),
    fertilizer_npk := "N: 100kg/ha, P: 50kg/ha, K: 50kg/ha",
    growing_period := "120-150 days", water_requirement := "450-650mm" }

/-- `CROP_CONDITIONS['Corn']` (app.py lines 29-37). -/
def cornProfile : CropProfile :=
  { temp_range := (18, 32), soil_ph := (5.8, 7.0), rainfall := (500, 800),
    soil_moisture := (0.5, 0.75),
    fertilizer_npk := "N: 150kg/ha, P: 75kg/ha, K: 75kg/ha",
    growing_period := "90-120 days", water_requirement := "500-800mm" }

/-- `CROP_CONDITIONS['Soybean']` (app.py lines 38-46). -/
def soybeanProfile : CropProfile :=
  { temp_range := (20, 30), soil_ph := (6.0, 6.8), rainfall := (450, 700),
    soil_moisture := (0.5, 0.7),
    fertilizer_npk := "N: 20kg/ha, P: 60kg/ha, K: 40kg/ha",
    growing_period := "100-120 days", water_requirement := "450-700mm" }

/-- The keys of `CROP_CONDITIONS` in insertion order: this is
`list(CROP_CONDITIONS.keys())` as used by the crop selector (app.py line 116)
and by the one-hot loop (app.py line 199). -/
def cropKeys : List String := ["Rice", "Wheat", "Corn", "Soybean"]

/-- Dictionary access `CROP_CONDITIONS[selected_crop]` (app.py line 117):
each supported key yields its profile; any other key raises `KeyError`
(modelled as `none` — the spec names this failure `UnknownCropError`). -/
def cropLookup (crop : String) : Option CropProfile :=
  if crop = "Rice" then some riceProfile
  else if crop = "Wheat" then some wheatProfile
  else if crop = "Corn" then some cornProfile
  else if crop = "Soybean" then some soybeanProfile
  else none

/-- One form submission of the farmer path (app.py lines 188-196). -/
structure PredictionInput where
  temp : ℚ
  rainfall : ℚ
  soil_ph : ℚ
  soil_moisture : ℚ
  fertilizer : ℚ
  pesticide : ℚ
  sustainability : ℚ
deriving DecidableEq

/-- The crop one-hot indicator columns added to the feature row (app.py
lines 199-200): `input_data['Crop_Type_' + crop] = 1 if crop == selected_crop
else 0` for each key of `CROP_CONDITIONS`. -/
def cropIndicators (selected_crop : String) : List (String × ℕ) :=
  cropKeys.map (fun crop => (crop, if crop = selected_crop then 1 else 0))

/-- Lime dose in the acid-soil block (app.py line 411):
`2000 if selected_crop in ['Rice', 'Corn'] else 1500` (kg/ha). -/
def limeDose (crop : String) : ℕ :=
  if crop = "Rice" ∨ crop = "Corn" then 2000 else 1500

/-- Sulfur dose in the alkaline-soil block (app.py line 453):
`300 if selected_crop in ['Rice', 'Soybean'] else 400` (kg/ha). -/
def sulfurDose (crop : String) : ℕ :=
  if crop = "Rice" ∨ crop = "Soybean" then 300 else 400

/-- Drip-emitter spacing in the insufficient-rainfall block (app.py
lines 500-503): `"emitters every 30cm" if selected_crop in ['Rice', 'Wheat']
else "emitters every 45cm"` (modelled by the centimetre figure). -/
def emitterSpacing (crop : String) : ℕ :=
  if crop = "Rice" ∨ crop = "Wheat" then 30 else 45

/-- The overall-assessment variant (app.py line 290): `"excellent growing
conditions" if prediction > y.mean() else "some areas that need attention"`. -/
def farmerAssessment (prediction ymean : ℚ) : String :=
  if prediction > ymean then "excellent growing conditions"
  else "some areas that need attention"

/-- The advisory sections the farmer path can render after a submission,
each carrying the crop-dependent data the claims are about. -/
inductive AdvisorySection where
  | overallAssessment (text : String)
  | lowTemp
  | highTemp
  | acidSoil (lime : ℕ)
  | alkalineSoil (sulfur : ℕ)
  | insufficientRainfall (spacing : ℕ)
  | growthStage (crop : String)
  | nutrientMgmt (crop : String)
deriving DecidableEq

/-- The ordered sequence of advisory sections rendered on a farmer-path
submission (app.py lines 279-614): the overall assessment, then the
conditional temperature block (`if temp < min ... elif temp > max ...`,
lines 297-399), the conditional soil-pH block (`if soil_ph < min ... elif
soil_ph > max ...`, lines 402-491), the conditional rainfall block
(`if rainfall < min`, lines 494-528), then the unconditional growth-stage
(line 531) and nutrient-management (line 576) sections. -/
def renderFarmer (selected_crop : String) (crop_info : CropProfile)
    (inp : PredictionInput) (prediction ymean : ℚ) : List AdvisorySection :=
  [AdvisorySection.overallAssessment (farmerAssessment prediction ymean)]
  ++ (if inp.temp < crop_info.temp_range.1 then [AdvisorySection.lowTemp]
      else if inp.temp > crop_info.temp_range.2 then [AdvisorySection.highTemp]
      else [])
  ++ (if inp.soil_ph < crop_info.soil_ph.1 then
        [AdvisorySection.acidSoil (limeDose selected_crop)]
      else if inp.soil_ph > crop_info.soil_ph.2 then
        [AdvisorySection.alkalineSoil (sulfurDose selected_crop)]
      else [])
  ++ (if inp.rainfall < crop_info.rainfall.1 then
        [AdvisorySection.insufficientRainfall (emitterSpacing selected_crop)]
      else [])
  ++ [AdvisorySection.growthStage selected_crop,
      AdvisorySection.nutrientMgmt selected_crop]

/-- The market-position banner variants (app.py lines 751-790). -/
inductive MarketBanner where
  | belowAverageWarning
  | aboveAverageGrowth
deriving DecidableEq

/-- Banner selection in the market path (app.py line 751): the warning
(short-term strategy) banner if `prediction < y.mean()`, else the success
(growth strategy) banner. -/
def marketBanner (prediction ymean : ℚ) : MarketBanner :=
  if prediction < ymean then MarketBanner.belowAverageWarning
  else MarketBanner.aboveAverageGrowth

/-- The risk count of one column group (app.py lines 796-797, 811-812,
826-827): `sum(1 for col, val in data.items() if val < X[col].mean())`,
over the group's (column, submitted value) pairs. -/
def riskCount (data : List (String × ℚ)) (colMean : String → ℚ) : ℕ :=
  (data.filter (fun p => p.2 < colMean p.1)).length

/-- Whether a group's risk alert fires (app.py lines 799, 814, 829):
`risk > len(data) / 2` with Python true division. -/
def riskFires (data : List (String × ℚ)) (colMean : String → ℚ) : Bool :=
  (riskCount data colMean : ℚ) > (data.length : ℚ) / 2

/-! ## Helper lemmas about the table and the rendered bundle -/

lemma cropLookup_eq_some (crop : String) (profile : CropProfile)
    (h : cropLookup crop = some profile) :
    profile = riceProfile ∨ profile = wheatProfile ∨
      profile = cornProfile ∨ profile = soybeanProfile := by
  unfold cropLookup at h
  split_ifs at h <;> simp_all

lemma cropLookup_range_sound (crop : String) (profile : CropProfile)
    (h : cropLookup crop = some profile) :
    profile.temp_range.1 < profile.temp_range.2 ∧
      profile.soil_ph.1 < profile.soil_ph.2 ∧
      profile.rainfall.1 < profile.rainfall.2 := by
  rcases cropLookup_eq_some crop profile h with h1 | h1 | h1 | h1 <;> subst h1 <;>
    norm_num [riceProfile, wheatProfile, cornProfile, soybeanProfile]

lemma lowTemp_mem_iff (crop : String) (p : CropProfile) (i : PredictionInput)
    (pred m : ℚ) :
    AdvisorySection.lowTemp ∈ renderFarmer crop p i pred m ↔
      i.temp < p.temp_range.1 := by
  unfold renderFarmer
  split_ifs <;> simp_all

lemma highTemp_mem_iff (crop : String) (p : CropProfile) (i : PredictionInput)
    (pred m : ℚ) :
    AdvisorySection.highTemp ∈ renderFarmer crop p i pred m ↔
      ¬ i.temp < p.temp_range.1 ∧ p.temp_range.2 < i.temp := by
  unfold renderFarmer
  split_ifs <;> simp_all

lemma acidSoil_mem_iff (crop : String) (p : CropProfile) (i : PredictionInput)
    (pred m : ℚ) (d : ℕ) :
    AdvisorySection.acidSoil d ∈ renderFarmer crop p i pred m ↔
      i.soil_ph < p.soil_ph.1 ∧ d = limeDose crop := by
  unfold renderFarmer
  split_ifs <;> simp_all

lemma alkalineSoil_mem_iff (crop : String) (p : CropProfile) (i : PredictionInput)
    (pred m : ℚ) (d : ℕ) :
    AdvisorySection.alkalineSoil d ∈ renderFarmer crop p i pred m ↔
      ¬ i.soil_ph < p.soil_ph.1 ∧ p.soil_ph.2 < i.soil_ph ∧ d = sulfurDose crop := by
  unfold renderFarmer
  split_ifs <;> simp_all

lemma insufficientRainfall_mem_iff (crop : String) (p : CropProfile)
    (i : PredictionInput) (pred m : ℚ) (d : ℕ) :
    AdvisorySection.insufficientRainfall d ∈ renderFarmer crop p i pred m ↔
      i.rainfall < p.rainfall.1 ∧ d = emitterSpacing crop := by
  unfold renderFarmer
  split_ifs <;> simp_all

lemma growthStage_mem (crop : String) (p : CropProfile) (i : PredictionInput)
    (pred m : ℚ) :
    AdvisorySection.growthStage crop ∈ renderFarmer crop p i pred m := by
  unfold renderFarmer
  split_ifs <;> simp

lemma nutrientMgmt_mem (crop : String) (p : CropProfile) (i : PredictionInput)
    (pred m : ℚ) :
    AdvisorySection.nutrientMgmt crop ∈ renderFarmer crop p i pred m := by
  unfold renderFarmer
  split_ifs <;> simp

/-! ## Sample submissions used by the witnesses -/

/-- A Rice submission at 15°C (the low-temperature example of the spec). -/
def coldInput : PredictionInput :=
  { temp := 15, rainfall := 1000, soil_ph := 6, soil_moisture := 0.7,
    fertilizer := 100, pesticide := 5, sustainability := 7 }

/-- A Corn submission at 400mm rainfall (the insufficient-rainfall example). -/
def dryCornInput : PredictionInput :=
  { temp := 25, rainfall := 400, soil_ph := 6.5, soil_moisture := 0.6,
    fertilizer := 100, pesticide := 5, sustainability := 7 }

/-- A Wheat submission at soil pH 7.5 (the alkaline example of the spec). -/
def wheatAlkalineInput : PredictionInput :=
  { temp := 20, rainfall := 700, soil_ph := 7.5, soil_moisture := 0.6,
    fertilizer := 100, pesticide := 5, sustainability := 7 }

/-! ## The claims -/

/-- C1: for every supported crop and every submitted input, the temperature
section fires its low block exactly when the input is strictly below the
profile minimum and its high block exactly when strictly above the maximum,
neither within the inclusive range and never both; the soil-pH section obeys
the same rule against the profile's soil-pH range. -/
theorem temperature_and_ph_boundary_rule (crop : String) (profile : CropProfile)
    (h : cropLookup crop = some profile) (inp : PredictionInput) (pred ymean : ℚ) :
    (inp.temp < profile.temp_range.1 →
        AdvisorySection.lowTemp ∈ renderFarmer crop profile inp pred ymean ∧
        AdvisorySection.highTemp ∉ renderFarmer crop profile inp pred ymean) ∧
    (profile.temp_range.2 < inp.temp →
        AdvisorySection.highTemp ∈ renderFarmer crop profile inp pred ymean ∧
        AdvisorySection.lowTemp ∉ renderFarmer crop profile inp pred ymean) ∧
    (profile.temp_range.1 ≤ inp.temp → inp.temp ≤ profile.temp_range.2 →
        AdvisorySection.lowTemp ∉ renderFarmer crop profile inp pred ymean ∧
        AdvisorySection.highTemp ∉ renderFarmer crop profile inp pred ymean) ∧
    (inp.soil_ph < profile.soil_ph.1 →
        AdvisorySection.acidSoil (limeDose crop) ∈ renderFarmer crop profile inp pred ymean ∧
        ∀ d, AdvisorySection.alkalineSoil d ∉ renderFarmer crop profile inp pred ymean) ∧
    (profile.soil_ph.2 < inp.soil_ph →
        AdvisorySection.alkalineSoil (sulfurDose crop) ∈ renderFarmer crop profile inp pred ymean ∧
        ∀ d, AdvisorySection.acidSoil d ∉ renderFarmer crop profile inp pred ymean) ∧
    (profile.soil_ph.1 ≤ inp.soil_ph → inp.soil_ph ≤ profile.soil_ph.2 →
        (∀ d, AdvisorySection.acidSoil d ∉ renderFarmer crop profile inp pred ymean) ∧
        ∀ d, AdvisorySection.alkalineSoil d ∉ renderFarmer crop profile inp pred ymean) := by
  obtain ⟨htemp, hph, -⟩ := cropLookup_range_sound crop profile h
  refine ⟨fun h1 => ?_, fun h2 => ?_, fun h3 h4 => ?_, fun h5 => ?_, fun h6 => ?_,
    fun h7 h8 => ?_⟩
  · exact ⟨(lowTemp_mem_iff _ _ _ _ _).mpr h1,
      fun hm => ((highTemp_mem_iff _ _ _ _ _).mp hm).1 h1⟩
  · refine ⟨(highTemp_mem_iff _ _ _ _ _).mpr ⟨by linarith, h2⟩, fun hm => ?_⟩
    have := (lowTemp_mem_iff _ _ _ _ _).mp hm
    linarith
  · refine ⟨fun hm => ?_, fun hm => ?_⟩
    · have := (lowTemp_mem_iff _ _ _ _ _).mp hm
      linarith
    · have := ((highTemp_mem_iff _ _ _ _ _).mp hm).2
      linarith
  · exact ⟨(acidSoil_mem_iff _ _ _ _ _ _).mpr ⟨h5, rfl⟩,
      fun d hm => ((alkalineSoil_mem_iff _ _ _ _ _ _).mp hm).1 h5⟩
  · refine ⟨(alkalineSoil_mem_iff _ _ _ _ _ _).mpr ⟨by linarith, h6, rfl⟩, fun d hm => ?_⟩
    have := ((acidSoil_mem_iff _ _ _ _ _ _).mp hm).1
    linarith
  · refine ⟨fun d hm => ?_, fun d hm => ?_⟩
    · have := ((acidSoil_mem_iff _ _ _ _ _ _).mp hm).1
      linarith
    · have := ((alkalineSoil_mem_iff _ _ _ _ _ _).mp hm).2.1
      linarith

/-- Witness for C1: Rice at 15°C fires the low-temperature block and not the
high-temperature block. -/
theorem temperature_and_ph_boundary_rule_witness :
    coldInput.temp < riceProfile.temp_range.1 ∧
      AdvisorySection.lowTemp ∈ renderFarmer "Rice" riceProfile coldInput 3 2 ∧
      AdvisorySection.highTemp ∉ renderFarmer "Rice" riceProfile coldInput 3 2 := by
  have h := (temperature_and_ph_boundary_rule "Rice" riceProfile rfl coldInput 3 2).1
  have hlt : coldInput.temp < riceProfile.temp_range.1 := by
    norm_num [coldInput, riceProfile]
  exact ⟨hlt, (h hlt).1, (h hlt).2⟩

/-- C2: for every supported crop, the rainfall section fires its only block
(the insufficient-rainfall block) exactly when the input rainfall is strictly
below the profile minimum; at or above the minimum — in particular strictly
above the maximum — no rainfall block fires. -/
theorem rainfall_asymmetric_rule (crop : String) (profile : CropProfile)
    (h : cropLookup crop = some profile) (inp : PredictionInput) (pred ymean : ℚ) :
    (inp.rainfall < profile.rainfall.1 →
        AdvisorySection.insufficientRainfall (emitterSpacing crop) ∈
          renderFarmer crop profile inp pred ymean) ∧
    (profile.rainfall.1 ≤ inp.rainfall →
        ∀ d, AdvisorySection.insufficientRainfall d ∉ renderFarmer crop profile inp pred ymean) ∧
    (profile.rainfall.2 < inp.rainfall →
        ∀ d, AdvisorySection.insufficientRainfall d ∉
          renderFarmer crop profile inp pred ymean) := by
  obtain ⟨-, -, hrain⟩ := cropLookup_range_sound crop profile h
  refine ⟨fun h1 => (insufficientRainfall_mem_iff _ _ _ _ _ _).mpr ⟨h1, rfl⟩,
    fun h2 d hm => ?_, fun h3 d hm => ?_⟩
  · have := ((insufficientRainfall_mem_iff _ _ _ _ _ _).mp hm).1
    linarith
  · have := ((insufficientRainfall_mem_iff _ _ _ _ _ _).mp hm).1
    linarith

/-- Witness for C2: Corn at 400mm rainfall fires the insufficient-rainfall
block (with 45cm emitter spacing), and at 900mm (above the 800mm maximum) no
rainfall block fires. -/
theorem rainfall_asymmetric_rule_witness :
    dryCornInput.rainfall < cornProfile.rainfall.1 ∧
      AdvisorySection.insufficientRainfall 45 ∈
        renderFarmer "Corn" cornProfile dryCornInput 3 2 := by
  have h := (rainfall_asymmetric_rule "Corn" cornProfile rfl dryCornInput 3 2).1
  have hlt : dryCornInput.rainfall < cornProfile.rainfall.1 := by
    norm_num [dryCornInput, cornProfile]
  exact ⟨hlt, h hlt⟩

/-- C3: for every supported crop and every submitted input, the growth-stage
and nutrient-management sections are present in the rendered bundle,
regardless of the numeric input values; their payload is the crop alone. -/
theorem growth_and_nutrient_always_fire (crop : String) (profile : CropProfile)
    (h : cropLookup crop = some profile) (inp : PredictionInput) (pred ymean : ℚ) :
    AdvisorySection.growthStage crop ∈ renderFarmer crop profile inp pred ymean ∧
      AdvisorySection.nutrientMgmt crop ∈ renderFarmer crop profile inp pred ymean :=
  ⟨growthStage_mem crop profile inp pred ymean, nutrientMgmt_mem crop profile inp pred ymean⟩

/-- Witness for C3 at crop Rice and a concrete submission. -/
theorem growth_and_nutrient_always_fire_witness :
    AdvisorySection.growthStage "Rice" ∈ renderFarmer "Rice" riceProfile coldInput 3 2 ∧
      AdvisorySection.nutrientMgmt "Rice" ∈ renderFarmer "Rice" riceProfile coldInput 3 2 :=
  growth_and_nutrient_always_fire "Rice" riceProfile rfl coldInput 3 2

/-- C4: for every selection among the four supported crops, the one-hot
indicator columns handed to the regression predictor hold exactly one 1 —
on the selected crop's column — and 0 on the other three. -/
theorem one_hot_single_indicator (selected : String) (h : selected ∈ cropKeys) :
    (cropIndicators selected).countP (fun p => p.2 == 1) = 1 ∧
      ∀ p ∈ cropIndicators selected,
        (p.2 = 1 ↔ p.1 = selected) ∧ (p.2 = 0 ↔ p.1 ≠ selected) := by
  simp only [cropKeys, List.mem_cons, List.not_mem_nil, or_false] at h
  rcases h with rfl | rfl | rfl | rfl <;> decide

/-- Witness for C4 at the selection Wheat. -/
theorem one_hot_single_indicator_witness :
    "Wheat" ∈ cropKeys ∧ (cropIndicators "Wheat").countP (fun p => p.2 == 1) = 1 :=
  ⟨by decide, (one_hot_single_indicator "Wheat" (by decide)).1⟩

/-- C5: the numeric advisory constants are fixed small-set conditionals on the
crop identifier alone — lime 2000 kg/ha on Rice and Corn else 1500, sulfur
300 kg/ha on Rice and Soybean else 400 (so alkaline Wheat gets 400),
emitter spacing 30cm on Rice and Wheat else 45cm — and the Wheat pH-7.5
alkaline block carries the 400 figure for every predictor output. -/
theorem per_crop_advisory_constants :
    limeDose "Rice" = 2000 ∧ limeDose "Corn" = 2000 ∧
      (∀ crop, crop ≠ "Rice" → crop ≠ "Corn" → limeDose crop = 1500) ∧
      sulfurDose "Rice" = 300 ∧ sulfurDose "Soybean" = 300 ∧
      (∀ crop, crop ≠ "Rice" → crop ≠ "Soybean" → sulfurDose crop = 400) ∧
      emitterSpacing "Rice" = 30 ∧ emitterSpacing "Wheat" = 30 ∧
      (∀ crop, crop ≠ "Rice" → crop ≠ "Wheat" → emitterSpacing crop = 45) ∧
      ∀ pred ymean : ℚ, AdvisorySection.alkalineSoil 400 ∈
        renderFarmer "Wheat" wheatProfile wheatAlkalineInput pred ymean := by
  refine ⟨by decide, by decide, fun crop h1 h2 => ?_, by decide, by decide,
    fun crop h1 h2 => ?_, by decide, by decide, fun crop h1 h2 => ?_,
    fun pred ymean => ?_⟩
  · simp [limeDose, h1, h2]
  · simp [sulfurDose, h1, h2]
  · simp [emitterSpacing, h1, h2]
  · refine (alkalineSoil_mem_iff _ _ _ _ _ _).mpr ⟨?_, ?_, by decide⟩
    · norm_num [wheatAlkalineInput, wheatProfile]
    · norm_num [wheatAlkalineInput, wheatProfile]

/-- C6: looking up any identifier outside the four supported crops yields no
profile (Python raises `KeyError`, the spec's `UnknownCropError`); looking up
any of the four supported identifiers succeeds with a profile. -/
theorem cropLookup_supported_total (crop : String) :
    (crop ∉ cropKeys → cropLookup crop = none) ∧
      (crop ∈ cropKeys → ∃ profile, cropLookup crop = some profile) := by
  constructor
  · intro h
    unfold cropLookup
    split_ifs with h1 h2 h3 h4 <;> simp_all [cropKeys]
  · intro h
    simp only [cropKeys, List.mem_cons, List.not_mem_nil, or_false] at h
    rcases h with rfl | rfl | rfl | rfl
    · exact ⟨riceProfile, rfl⟩
    · exact ⟨wheatProfile, rfl⟩
    · exact ⟨cornProfile, rfl⟩
    · exact ⟨soybeanProfile, rfl⟩

/-- C7: each supported crop's profile satisfies the range invariants:
min < max for all four range tuples, the soil-pH range inside [0, 14] and
the soil-moisture range inside [0, 1]. -/
theorem cropLookup_range_invariants (crop : String) (profile : CropProfile)
    (h : cropLookup crop = some profile) :
    profile.temp_range.1 < profile.temp_range.2 ∧
      (0 ≤ profile.soil_ph.1 ∧ profile.soil_ph.1 < profile.soil_ph.2 ∧
        profile.soil_ph.2 ≤ 14) ∧
      profile.rainfall.1 < profile.rainfall.2 ∧
      (0 ≤ profile.soil_moisture.1 ∧ profile.soil_moisture.1 < profile.soil_moisture.2 ∧
        profile.soil_moisture.2 ≤ 1) := by
  rcases cropLookup_eq_some crop profile h with h1 | h1 | h1 | h1 <;> subst h1 <;>
    norm_num [riceProfile, wheatProfile, cornProfile, soybeanProfile]

/-- Witness for C7 at crop Soybean. -/
theorem cropLookup_range_invariants_witness :
    cropLookup "Soybean" = some soybeanProfile ∧
      soybeanProfile.temp_range.1 < soybeanProfile.temp_range.2 ∧
      (0 ≤ soybeanProfile.soil_ph.1 ∧ soybeanProfile.soil_ph.1 < soybeanProfile.soil_ph.2 ∧
        soybeanProfile.soil_ph.2 ≤ 14) ∧
      soybeanProfile.rainfall.1 < soybeanProfile.rainfall.2 ∧
      (0 ≤ soybeanProfile.soil_moisture.1 ∧
        soybeanProfile.soil_moisture.1 < soybeanProfile.soil_moisture.2 ∧
        soybeanProfile.soil_moisture.2 ≤ 1) :=
  ⟨rfl, cropLookup_range_invariants "Soybean" soybeanProfile rfl⟩

/-- C8: the message variant depends only on which side of the training
target's mean the prediction stands: two predictions on the same side select
the same farmer assessment and the same market banner. -/
theorem mean_comparison_opaque (p1 p2 m : ℚ)
    (hgt : p1 > m ↔ p2 > m) (hlt : p1 < m ↔ p2 < m) :
    farmerAssessment p1 m = farmerAssessment p2 m ∧
      marketBanner p1 m = marketBanner p2 m := by
  unfold farmerAssessment marketBanner
  constructor <;> split_ifs <;> first | rfl | tauto

/-- Witness for C8: predictions 5 and 6 against mean 3 stand on the same side
and receive the same variants. -/
theorem mean_comparison_opaque_witness :
    ((5 : ℚ) > 3 ↔ (6 : ℚ) > 3) ∧ ((5 : ℚ) < 3 ↔ (6 : ℚ) < 3) ∧
      farmerAssessment 5 3 = farmerAssessment 6 3 ∧
      marketBanner 5 3 = marketBanner 6 3 :=
  ⟨by norm_num, by norm_num, mean_comparison_opaque 5 6 3 (by norm_num) (by norm_num)⟩

/-- C9: at the boundary where the prediction equals the training mean, the
farmer path (strict greater-than) reports "some areas that need attention"
while the market path (strict less-than) shows the above-average growth
banner. -/
theorem boundary_at_mean (m : ℚ) :
    farmerAssessment m m = "some areas that need attention" ∧
      marketBanner m m = MarketBanner.aboveAverageGrowth := by
  unfold farmerAssessment marketBanner
  simp

/-- C10: a group's risk alert fires exactly when strictly more than half of
the group's submitted values are strictly below their column means; with
exactly half below, or with an empty group, it does not fire. -/
theorem risk_alert_majority_rule (data : List (String × ℚ)) (colMean : String → ℚ) :
    (riskFires data colMean = true ↔ 2 * riskCount data colMean > data.length) ∧
      (2 * riskCount data colMean = data.length → riskFires data colMean = false) ∧
      (data = [] → riskFires data colMean = false) := by
  have key : riskFires data colMean = true ↔ 2 * riskCount data colMean > data.length := by
    unfold riskFires
    simp only [gt_iff_lt, decide_eq_true_eq]
    rw [div_lt_iff₀ (by norm_num : (0 : ℚ) < 2), mul_comm]
    constructor
    · intro hq
      exact_mod_cast hq
    · intro hn
      exact_mod_cast hn
  refine ⟨key, fun heq => ?_, fun hnil => ?_⟩
  · rw [Bool.eq_false_iff]
    intro htrue
    have := key.mp htrue
    omega
  · subst hnil
    rw [Bool.eq_false_iff]
    intro htrue
    have := key.mp htrue
    simp [riskCount] at this
